import Mathlib

/-!
Verification of the mount-path resolution and idempotent-mount orchestration
subsystem of the xarfuse repository (Rust), via a shallow embedding in Lean.

The repository contains two parallel implementations of the subsystem:
the flat one in src/mount.rs (embedded here in namespace MountFlat) and the
modular one in src/mount/{mod,directory,lock}.rs (namespace MountMod).

Modelling choices:
* A filesystem-metadata view is a function String → Option Metadata, modelling
  the result of fs::metadata on each path (none = the call errored, e.g. ENOENT).
* The environment seed variable XAR_MOUNT_SEED is an Option String (none =
  env::var returned Err, i.e. the variable is absent).
* PathBuf values are strings, with parent/file_name computed by splitting on
  the path separator, and push inserting one separator (matching PathBuf
  semantics on the normal absolute paths this program builds).
* The effectful orchestrator Xar::mount is embedded as a function from an
  abstract environment (MountEnv, recording the outcome the OS gives to each
  syscall the code performs) to the pair of the trace of effects performed and
  the Result value returned.  Each is_mounted call inside one mount invocation
  is numbered; env.isMounted k is the value the platform is_mounted function
  returns at the k-th call (call 0 is the pre-spawn check, calls 1, 2, … are
  the poll-loop checks).
* Real time in the poll loop is idealised as (number of sleeps) × 100 µs,
  the fixed sleep interval of the source; the 9-second deadline is 9000000 µs.
-/

/-- The fields of fs::metadata's result that the source reads:
permissions().mode() and ino(). -/
structure Metadata where
  mode : Nat
  ino : Nat
deriving DecidableEq

/-- The fields of nix statfs's result that the source reads:
filesystem_type_name() (macOS) and filesystem_type() (other platforms). -/
structure StatFs where
  fstypename : String
  ftype : Nat
deriving DecidableEq

/-- Exit status of the spawned mount-helper process: normal exit with a code,
or termination by a signal (in which case status.code() is None). -/
inductive HelperStatus where
  | exit : Int → HelperStatus
  | signal : Int → HelperStatus
deriving DecidableEq

/-- Observable filesystem effects performed by one Xar::mount invocation.
The constructor rmdir is part of the alphabet so that absence of directory
removal is expressible; the source never calls any removal API. -/
inductive Event where
  | mkdir : String → Event
  | chown : String → Event
  | rmdir : String → Event
  | lock : String → Event
  | spawn : String → String → String → Event
  | touch : Event
deriving DecidableEq

/-- The error outcomes of Xar::mount (the failure::Error values it can
return, classified). timeout carries the idealised elapsed microseconds at
which the deadline was detected. -/
inductive MountError where
  | ioError : String → MountError
  | helperExit : Int → MountError
  | helperSignal : Int → MountError
  | timeout : Nat → MountError
deriving DecidableEq

/-- Abstract environment for one Xar::mount invocation: the answer the OS
gives to each operation the code performs. dirExists/mkdirOk/chownOk are per
path; isMounted is indexed by the call number within the invocation. -/
structure MountEnv where
  dirExists : String → Bool
  mkdirOk : String → Bool
  chownOk : String → Bool
  lockOk : Bool
  isMounted : Nat → Bool
  spawnOk : Bool
  helperStatus : HelperStatus
  touchOk : Bool

/-- Split a character list at every occurrence of c (the list of components,
like str::split). -/
def splitOnChar (c : Char) : List Char → List (List Char)
  | [] => [[]]
  | x :: xs =>
    match splitOnChar c xs with
    | [] => [[]]
    | h :: t => if x == c then [] :: h :: t else (x :: h) :: t

/-- Rejoin path components with the separator. -/
def joinWithSlash : List (List Char) → List Char
  | [] => []
  | [x] => x
  | x :: y :: xs => x ++ '/' :: joinWithSlash (y :: xs)

/-- PathBuf::parent for the slash-joined string paths this program builds. -/
def parentPath (p : String) : String :=
  String.mk (joinWithSlash ((splitOnChar '/' p.data).dropLast))

/-- PathBuf::file_name for the slash-joined string paths this program builds. -/
def fileName (p : String) : String :=
  String.mk ((splitOnChar '/' p.data).getLastD [])

namespace MountFlat

/-- const DEFAULT_MOUNT_ROOTS in src/mount.rs. -/
def DEFAULT_MOUNT_ROOTS : List String := ["/mnt/xarfuse", "/dev/shm"]

/-- const PROC_MOUNT_NAMESPACE in src/mount.rs. -/
def PROC_MOUNT_NAMESPACE : String := "/proc/self/ns/mnt"

/-- fn find_mount_root (src/mount.rs lines 21-42), over a metadata view fs. -/
def find_mount_root (fs : String → Option Metadata) (mount_root : Option String) :
    Except String String :=
  match mount_root with
  | some root =>
    match fs root with
    | none => Except.error "metadata"
    | some attr =>
      if (attr.mode &&& 0o07777) ≠ 0o01777 then
        Except.error "Mount root permissions should be 0o01777"
      else
        Except.ok root
  | none =>
    match DEFAULT_MOUNT_ROOTS.find? (fun candidate =>
        match fs candidate with
        | some attr => (attr.mode &&& 0o07777) == 0o01777
        | none => false) with
    | some candidate => Except.ok candidate
    | none => Except.error "Unable to find suitable 0o01777 mount root."

/-- fn get_user_basedir (src/mount.rs lines 44-46). -/
def get_user_basedir (uid : Nat) : String :=
  "uid-" ++ toString uid

/-- fn get_mount_dir (src/mount.rs lines 48-65).  seedEnv is the value of
env::var(XAR_MOUNT_SEED) (none = Err); fs supplies metadata of
/proc/self/ns/mnt for the namespace-inode suffix. -/
def get_mount_dir (fs : String → Option Metadata) (seedEnv : Option String)
    (uuid : String) : String :=
  let mount_directory := uuid
  let mount_directory :=
    match seedEnv with
    | some seed =>
      if !seed.data.isEmpty && !(seed.data.contains '/') then
        mount_directory ++ "-seed-" ++ seed
      else
        mount_directory
    | none => mount_directory
  match fs PROC_MOUNT_NAMESPACE with
  | some attr => mount_directory ++ "-ns-" ++ toString attr.ino
  | none => mount_directory

/-- Xar::find_mount (src/mount.rs lines 132-143): resolve the mount path
<mount_root>/uid-<euid>/<mount-dir>. -/
def find_mount (fs : String → Option Metadata) (seedEnv : Option String)
    (uid : Nat) (mount_root : Option String) (uuid : String) :
    Except String String :=
  match find_mount_root fs mount_root with
  | Except.error e => Except.error e
  | Except.ok root =>
    Except.ok (root ++ "/" ++ get_user_basedir uid ++ "/" ++ get_mount_dir fs seedEnv uuid)

/-- fn create_directory (src/mount.rs lines 67-80), as a trace transformer:
returns the effects performed and whether the call succeeded.  If the
directory exists nothing is done; otherwise mkdir then chown, each of which
the environment may fail. -/
def create_directory (env : MountEnv) (dir : String) : List Event × Bool :=
  if env.dirExists dir then
    ([], true)
  else if env.mkdirOk dir then
    if env.chownOk dir then
      ([Event.mkdir dir, Event.chown dir], true)
    else
      ([Event.mkdir dir], false)
  else
    ([], false)

/-- The cfg(target_os = "macos") fn is_mounted (src/mount.rs lines 82-91):
true exactly for filesystem_type_name osxfuse or osxfusefs; a statfs error
yields Ok(false). -/
def is_mounted_macos (st : Option StatFs) : Except String Bool :=
  match st with
  | some s =>
    if s.fstypename == "osxfuse" || s.fstypename == "osxfusefs" then
      Except.ok true
    else
      Except.ok false
  | none => Except.ok false

/-- The cfg(not(target_os = "macos")) fn is_mounted (src/mount.rs lines
93-102): on a successful statfs it prints the filesystem type and returns
Ok(false); on error it returns Ok(false).  It never returns true. -/
def is_mounted_linux (st : Option StatFs) : Except String Bool :=
  match st with
  | some _ => Except.ok false
  | none => Except.ok false

/-- fn lock_directory (src/mount.rs lines 104-113): open or create the
sibling lockfile "lockfile.<mount-dir-name>" in the parent directory.
Returns the lock effect and whether the open succeeded. -/
def lock_directory (env : MountEnv) (mount : String) : List Event × Bool :=
  if env.lockOk then
    ([Event.lock (parentPath mount ++ "/lockfile." ++ fileName mount)], true)
  else
    ([], false)

/-- The poll loop of Xar::mount (src/mount.rs lines 176-185): repeatedly
query is_mounted (call number j within the invocation), bailing out once the
elapsed time exceeds the 9-second deadline, sleeping 100 µs between checks.
Elapsed time at call j is idealised as (j-1)·100 µs, the accumulated sleeps
since polling began (call 1 happens at elapsed 0).  Returns (true, elapsed)
on success and (false, elapsed) on deadline. -/
def pollLoop (env : MountEnv) (j : Nat) : Bool × Nat :=
  if env.isMounted j then
    (true, (j - 1) * 100)
  else if (j - 1) * 100 > 9000000 then
    (false, (j - 1) * 100)
  else
    pollLoop env (j + 1)
termination_by 90002 - j
decreasing_by
  simp_wf
  omega

/-- The tail of Xar::mount after the helper branch (src/mount.rs lines
176-190): poll for visibility, then touch the lockfile. -/
def finishMount (env : MountEnv) (t : List Event) : List Event × Except MountError Unit :=
  match pollLoop env 1 with
  | (false, e) => (t, Except.error (MountError.timeout e))
  | (true, _) =>
    if env.touchOk then
      (t ++ [Event.touch], Except.ok ())
    else
      (t, Except.error (MountError.ioError "touch"))

/-- Xar::mount (src/mount.rs lines 145-191): create the parent user
directory, open the lockfile, create the mount directory, then — unless the
path is already mounted — spawn squashfuse_ll with
-ooffset=<offset>,timeout=870 <archive> <mount> and wait for it; finally poll
for mount visibility and touch the lockfile. -/
def mount (env : MountEnv) (offset : Nat) (archive : String) (mountPath : String) :
    List Event × Except MountError Unit :=
  match create_directory env (parentPath mountPath) with
  | (t1, false) => (t1, Except.error (MountError.ioError "mkdir"))
  | (t1, true) =>
    match lock_directory env mountPath with
    | (tl, false) => (t1 ++ tl, Except.error (MountError.ioError "lock"))
    | (tl, true) =>
      match create_directory env mountPath with
      | (t2, false) => (t1 ++ tl ++ t2, Except.error (MountError.ioError "mkdir"))
      | (t2, true) =>
        let t := t1 ++ tl ++ t2
        if env.isMounted 0 then
          finishMount env t
        else if !env.spawnOk then
          (t, Except.error (MountError.ioError "spawn"))
        else
          let t := t ++ [Event.spawn ("-ooffset=" ++ toString offset ++ ",timeout=870")
            archive mountPath]
          match env.helperStatus with
          | HelperStatus.exit c =>
            if c = 0 then finishMount env t
            else (t, Except.error (MountError.helperExit c))
          | HelperStatus.signal s => (t, Except.error (MountError.helperSignal s))

end MountFlat

namespace MountMod

/-- const DEFAULT_MOUNT_ROOTS in src/mount/directory.rs. -/
def DEFAULT_MOUNT_ROOTS : List String := ["/mnt/xarfuse", "/dev/shm"]

/-- const PROC_MOUNT_NAMESPACE in src/mount/directory.rs. -/
def PROC_MOUNT_NAMESPACE : String := "/proc/self/ns/mnt"

/-- fn find_mount_root (src/mount/directory.rs lines 21-42). -/
def find_mount_root (fs : String → Option Metadata) (mount_root : Option String) :
    Except String String :=
  match mount_root with
  | some root =>
    match fs root with
    | none => Except.error "metadata"
    | some attr =>
      if (attr.mode &&& 0o07777) ≠ 0o01777 then
        Except.error "Mount root permissions should be 0o01777"
      else
        Except.ok root
  | none =>
    match DEFAULT_MOUNT_ROOTS.find? (fun candidate =>
        match fs candidate with
        | some attr => (attr.mode &&& 0o07777) == 0o01777
        | none => false) with
    | some candidate => Except.ok candidate
    | none => Except.error "Unable to find suitable 0o01777 mount root."

/-- fn get_user_basedir (src/mount/directory.rs lines 44-46). -/
def get_user_basedir (uid : Nat) : String :=
  "uid-" ++ toString uid

/-- fn get_mount_dir (src/mount/directory.rs lines 48-65). -/
def get_mount_dir (fs : String → Option Metadata) (seedEnv : Option String)
    (uuid : String) : String :=
  let mount_directory := uuid
  let mount_directory :=
    match seedEnv with
    | some seed =>
      if !seed.data.isEmpty && !(seed.data.contains '/') then
        mount_directory ++ "-seed-" ++ seed
      else
        mount_directory
    | none => mount_directory
  match fs PROC_MOUNT_NAMESPACE with
  | some attr => mount_directory ++ "-ns-" ++ toString attr.ino
  | none => mount_directory

/-- Directory::from_xar (src/mount/directory.rs lines 83-97), returning the
path field of the constructed Directory (the logger is not modelled). -/
def Directory.from_xar (fs : String → Option Metadata) (seedEnv : Option String)
    (uid : Nat) (mount_root : Option String) (uuid : String) :
    Except String String :=
  match find_mount_root fs mount_root with
  | Except.error e => Except.error e
  | Except.ok root =>
    Except.ok (root ++ "/" ++ get_user_basedir uid ++ "/" ++ get_mount_dir fs seedEnv uuid)

/-- fn create_directory (src/mount/directory.rs lines 67-80). -/
def create_directory (env : MountEnv) (dir : String) : List Event × Bool :=
  if env.dirExists dir then
    ([], true)
  else if env.mkdirOk dir then
    if env.chownOk dir then
      ([Event.mkdir dir, Event.chown dir], true)
    else
      ([Event.mkdir dir], false)
  else
    ([], false)

/-- Lock::directory (src/mount/lock.rs lines 11-20): open or create the
sibling lockfile "lockfile.<mount-dir-name>" in the parent directory. -/
def Lock.directory (env : MountEnv) (mount : String) : List Event × Bool :=
  if env.lockOk then
    ([Event.lock (parentPath mount ++ "/lockfile." ++ fileName mount)], true)
  else
    ([], false)

/-- Directory::lock_and_mkdir (src/mount/directory.rs lines 99-107): create
the parent user directory, open the lockfile, create the mount directory. -/
def Directory.lock_and_mkdir (env : MountEnv) (path : String) :
    List Event × Except MountError Unit :=
  match create_directory env (parentPath path) with
  | (t1, false) => (t1, Except.error (MountError.ioError "mkdir"))
  | (t1, true) =>
    match Lock.directory env path with
    | (tl, false) => (t1 ++ tl, Except.error (MountError.ioError "lock"))
    | (tl, true) =>
      match create_directory env path with
      | (t2, false) => (t1 ++ tl ++ t2, Except.error (MountError.ioError "mkdir"))
      | (t2, true) => (t1 ++ tl ++ t2, Except.ok ())

/-- The cfg(target_os = "macos") Directory::is_mounted
(src/mount/directory.rs lines 109-118). -/
def Directory.is_mounted_macos (st : Option StatFs) : Except String Bool :=
  match st with
  | some s =>
    if s.fstypename == "osxfuse" || s.fstypename == "osxfusefs" then
      Except.ok true
    else
      Except.ok false
  | none => Except.ok false

/-- The cfg(not(target_os = "macos")) Directory::is_mounted
(src/mount/directory.rs lines 120-129): prints the filesystem type on a
successful statfs and returns Ok(false) in every case. -/
def Directory.is_mounted_linux (st : Option StatFs) : Except String Bool :=
  match st with
  | some _ => Except.ok false
  | none => Except.ok false

/-- The poll loop of the modular Xar::mount (src/mount/mod.rs lines 50-59),
same idealised timing as MountFlat.pollLoop. -/
def pollLoop (env : MountEnv) (j : Nat) : Bool × Nat :=
  if env.isMounted j then
    (true, (j - 1) * 100)
  else if (j - 1) * 100 > 9000000 then
    (false, (j - 1) * 100)
  else
    pollLoop env (j + 1)
termination_by 90002 - j
decreasing_by
  simp_wf
  omega

/-- The tail of the modular Xar::mount (src/mount/mod.rs lines 50-64): poll
for visibility, then touch the lockfile. -/
def finishMount (env : MountEnv) (t : List Event) : List Event × Except MountError Unit :=
  match pollLoop env 1 with
  | (false, e) => (t, Except.error (MountError.timeout e))
  | (true, _) =>
    if env.touchOk then
      (t ++ [Event.touch], Except.ok ())
    else
      (t, Except.error (MountError.ioError "touch"))

/-- Xar::mount (src/mount/mod.rs lines 14-65). -/
def mount (env : MountEnv) (offset : Nat) (archive : String) (mountPath : String) :
    List Event × Except MountError Unit :=
  match Directory.lock_and_mkdir env mountPath with
  | (t, Except.error e) => (t, Except.error e)
  | (t, Except.ok _) =>
    if env.isMounted 0 then
      finishMount env t
    else if !env.spawnOk then
      (t, Except.error (MountError.ioError "spawn"))
    else
      let t := t ++ [Event.spawn ("-ooffset=" ++ toString offset ++ ",timeout=870")
        archive mountPath]
      match env.helperStatus with
      | HelperStatus.exit c =>
        if c = 0 then finishMount env t
        else (t, Except.error (MountError.helperExit c))
      | HelperStatus.signal s => (t, Except.error (MountError.helperSignal s))

end MountMod

/-- A metadata view where only the first default mount root exists, with the
required 01777 mode, and no namespace handle is statable. -/
def fsDefaultRootOnly : String → Option Metadata :=
  fun p => if p = "/mnt/xarfuse" then some { mode := 0o1777, ino := 0 } else none

/-- A metadata view where the override root has mode 0o777. -/
def fsRoot777 : String → Option Metadata :=
  fun p => if p = "/r" then some { mode := 0o777, ino := 0 } else none

/-- A metadata view where the override root has mode 0o1775. -/
def fsRoot1775 : String → Option Metadata :=
  fun p => if p = "/r" then some { mode := 0o1775, ino := 0 } else none

/-- A metadata view where the override root has mode 0o1777. -/
def fsRoot1777 : String → Option Metadata :=
  fun p => if p = "/r" then some { mode := 0o1777, ino := 0 } else none

/-- A metadata view where the first default root has the wrong mode and the
second has mode 0o1777. -/
def fsSecondDefault : String → Option Metadata :=
  fun p =>
    if p = "/mnt/xarfuse" then some { mode := 0o755, ino := 0 }
    else if p = "/dev/shm" then some { mode := 0o1777, ino := 0 }
    else none

/-- A metadata view where no default root has the required mode. -/
def fsNoRoot : String → Option Metadata :=
  fun p => if p = "/dev/shm" then some { mode := 0o755, ino := 0 } else none

/-- An environment where every operation succeeds, all directories already
exist, and the path is mounted at every is_mounted check. -/
def envMounted : MountEnv :=
  { dirExists := fun _ => true
    mkdirOk := fun _ => true
    chownOk := fun _ => true
    lockOk := true
    isMounted := fun _ => true
    spawnOk := true
    helperStatus := HelperStatus.exit 0
    touchOk := true }

/-- Like envMounted but no is_mounted check ever reports mounted. -/
def envNeverMounted : MountEnv :=
  { envMounted with isMounted := fun _ => false }

/-- Like envMounted but the path is unmounted at the pre-spawn check (call 0)
and mounted from the first poll check on. -/
def envAfterSpawn : MountEnv :=
  { envMounted with isMounted := fun k => k != 0 }

/-- Like envMounted but no directory exists yet, so both directories get
created. -/
def envFresh : MountEnv :=
  { envMounted with dirExists := fun _ => false }

/-- The projection used to count helper spawns in a trace. -/
def isSpawnEvent : Event → Bool
  | Event.spawn _ _ _ => true
  | _ => false

/-- Claim C5: mount-root resolution accepts a directory only when its
permission bits equal exactly 01777.  With an explicit header override, a
non-01777 mode is a failure and the default list is never consulted (the
result depends only on the override's metadata); without an override, the
first entry of the fixed ordered default list whose mode is 01777 is chosen,
and if none matches the resolution fails. -/
theorem find_mount_root_mode_exact (fs : String → Option Metadata) :
    (∀ root m, fs root = some m →
      ((m.mode &&& 0o07777) = 0o01777 →
        MountFlat.find_mount_root fs (some root) = Except.ok root) ∧
      ((m.mode &&& 0o07777) ≠ 0o01777 →
        MountFlat.find_mount_root fs (some root)
          = Except.error "Mount root permissions should be 0o01777")) ∧
    (∀ root (g : String → Option Metadata), g root = fs root →
      MountFlat.find_mount_root g (some root)
        = MountFlat.find_mount_root fs (some root)) ∧
    (∀ m, fs "/mnt/xarfuse" = some m → (m.mode &&& 0o07777) = 0o01777 →
      MountFlat.find_mount_root fs none = Except.ok "/mnt/xarfuse") ∧
    ((∀ m, fs "/mnt/xarfuse" = some m → (m.mode &&& 0o07777) ≠ 0o01777) →
      ∀ m, fs "/dev/shm" = some m → (m.mode &&& 0o07777) = 0o01777 →
        MountFlat.find_mount_root fs none = Except.ok "/dev/shm") ∧
    ((∀ c ∈ MountFlat.DEFAULT_MOUNT_ROOTS, ∀ m, fs c = some m →
        (m.mode &&& 0o07777) ≠ 0o01777) →
      MountFlat.find_mount_root fs none
        = Except.error "Unable to find suitable 0o01777 mount root.") := by
  refine ⟨?_, ?_, ?_, ?_, ?_⟩
  · intro root m hm
    constructor
    · intro hmode
      simp [MountFlat.find_mount_root, hm, hmode]
    · intro hmode
      simp [MountFlat.find_mount_root, hm, hmode]
  · intro root g hg
    simp [MountFlat.find_mount_root, hg]
  · intro m hm hmode
    have hb : (m.mode &&& 0o07777 == 0o01777) = true := by simp [hmode]
    simp [MountFlat.find_mount_root, MountFlat.DEFAULT_MOUNT_ROOTS, List.find?, hm, hb]
  · intro hfirst m hm hmode
    have hb2 : (m.mode &&& 0o07777 == 0o01777) = true := by simp [hmode]
    rcases h1 : fs "/mnt/xarfuse" with _ | m1
    · simp [MountFlat.find_mount_root, MountFlat.DEFAULT_MOUNT_ROOTS, List.find?, h1, hm, hb2]
    · have hb1 : (m1.mode &&& 0o07777 == 0o01777) = false := by
        simp [hfirst m1 h1]
      simp [MountFlat.find_mount_root, MountFlat.DEFAULT_MOUNT_ROOTS, List.find?, h1, hm,
        hb1, hb2]
  · intro hall
    have h1f : ∀ m1, fs "/mnt/xarfuse" = some m1 →
        (m1.mode &&& 0o07777 == 0o01777) = false := by
      intro m1 h
      simp [hall "/mnt/xarfuse" (by simp [MountFlat.DEFAULT_MOUNT_ROOTS]) m1 h]
    have h2f : ∀ m2, fs "/dev/shm" = some m2 →
        (m2.mode &&& 0o07777 == 0o01777) = false := by
      intro m2 h
      simp [hall "/dev/shm" (by simp [MountFlat.DEFAULT_MOUNT_ROOTS]) m2 h]
    rcases h1 : fs "/mnt/xarfuse" with _ | m1 <;> rcases h2 : fs "/dev/shm" with _ | m2
    · simp [MountFlat.find_mount_root, MountFlat.DEFAULT_MOUNT_ROOTS, List.find?, h1, h2]
    · simp [MountFlat.find_mount_root, MountFlat.DEFAULT_MOUNT_ROOTS, List.find?, h1, h2,
        h2f m2 h2]
    · simp [MountFlat.find_mount_root, MountFlat.DEFAULT_MOUNT_ROOTS, List.find?, h1, h2,
        h1f m1 h1]
    · simp [MountFlat.find_mount_root, MountFlat.DEFAULT_MOUNT_ROOTS, List.find?, h1, h2,
        h1f m1 h1, h2f m2 h2]

/-- Witness for C5: mode 0o777 rejected, 0o1775 rejected, 0o1777 accepted for
an explicit override; default-list scan picks the second entry when the first
has the wrong mode; no matching entry yields the configuration error. -/
theorem find_mount_root_mode_exact_witness :
    MountFlat.find_mount_root fsRoot777 (some "/r")
      = Except.error "Mount root permissions should be 0o01777" ∧
    MountFlat.find_mount_root fsRoot1775 (some "/r")
      = Except.error "Mount root permissions should be 0o01777" ∧
    MountFlat.find_mount_root fsRoot1777 (some "/r") = Except.ok "/r" ∧
    MountFlat.find_mount_root fsSecondDefault none = Except.ok "/dev/shm" ∧
    MountFlat.find_mount_root fsNoRoot none
      = Except.error "Unable to find suitable 0o01777 mount root." := by
  refine ⟨?_, ?_, ?_, ?_, ?_⟩
  · exact ((find_mount_root_mode_exact fsRoot777).1 "/r" { mode := 0o777, ino := 0 }
      rfl).2 (by decide)
  · exact ((find_mount_root_mode_exact fsRoot1775).1 "/r" { mode := 0o1775, ino := 0 }
      rfl).2 (by decide)
  · exact ((find_mount_root_mode_exact fsRoot1777).1 "/r" { mode := 0o1777, ino := 0 }
      rfl).1 (by decide)
  · exact (find_mount_root_mode_exact fsSecondDefault).2.2.2.1
      (by intro m hm; simp [fsSecondDefault] at hm; subst hm; decide)
      { mode := 0o1777, ino := 0 } rfl (by decide)
  · exact (find_mount_root_mode_exact fsNoRoot).2.2.2.2
      (by
        intro c hc m hm
        simp [MountFlat.DEFAULT_MOUNT_ROOTS] at hc
        rcases hc with rfl | rfl
        · simp [fsNoRoot] at hm
        · simp [fsNoRoot] at hm
          subst hm
          decide)

/-- Claim C6: a seed that is present, non-empty and free of path separators
yields the suffix "-seed-{seed}" in the mount directory name; an absent,
empty, or separator-containing seed is silently ignored (no suffix, no
error).  The optional namespace suffix is unaffected either way. -/
theorem get_mount_dir_seed (fs : String → Option Metadata) (uuid s : String) :
    (s.data.isEmpty = false → s.data.contains '/' = false →
      MountFlat.get_mount_dir fs (some s) uuid
        = match fs MountFlat.PROC_MOUNT_NAMESPACE with
          | some a => uuid ++ "-seed-" ++ s ++ "-ns-" ++ toString a.ino
          | none => uuid ++ "-seed-" ++ s) ∧
    (s.data.isEmpty = true ∨ s.data.contains '/' = true →
      MountFlat.get_mount_dir fs (some s) uuid
        = match fs MountFlat.PROC_MOUNT_NAMESPACE with
          | some a => uuid ++ "-ns-" ++ toString a.ino
          | none => uuid) ∧
    (MountFlat.get_mount_dir fs none uuid
      = match fs MountFlat.PROC_MOUNT_NAMESPACE with
        | some a => uuid ++ "-ns-" ++ toString a.ino
        | none => uuid) := by
  refine ⟨?_, ?_, ?_⟩
  · intro he hc
    simp at he hc
    rcases hns : fs MountFlat.PROC_MOUNT_NAMESPACE with _ | a <;>
      simp [MountFlat.get_mount_dir, hns, he, hc]
  · intro h
    rcases hns : fs MountFlat.PROC_MOUNT_NAMESPACE with _ | a <;>
      rcases h with h | h <;>
      simp at h <;>
      simp [MountFlat.get_mount_dir, hns, h]
  · rcases hns : fs MountFlat.PROC_MOUNT_NAMESPACE with _ | a <;>
      simp [MountFlat.get_mount_dir, hns]

/-- Witness for C6: seed "abc" yields "-seed-abc"; seed "foo/bar" and seed ""
are ignored (the directory name is just the uuid when no namespace handle is
statable). -/
theorem get_mount_dir_seed_witness :
    MountFlat.get_mount_dir fsDefaultRootOnly (some "abc") "u" = "u-seed-abc" ∧
    MountFlat.get_mount_dir fsDefaultRootOnly (some "foo/bar") "u" = "u" ∧
    MountFlat.get_mount_dir fsDefaultRootOnly (some "") "u" = "u" := by
  refine ⟨?_, ?_, ?_⟩
  · exact ((get_mount_dir_seed fsDefaultRootOnly "u" "abc").1 (by decide) (by decide)).trans
      rfl
  · exact ((get_mount_dir_seed fsDefaultRootOnly "u" "foo/bar").2.1
      (Or.inr (by decide))).trans rfl
  · exact ((get_mount_dir_seed fsDefaultRootOnly "u" "").2.1 (Or.inl (by decide))).trans rfl

/-- Claim C2: with a resolved mount root r, the resolved mount path is
r/uid-{uid}/{uuid}[-seed-{seed}][-ns-{inode}] — a pure function of the
inputs, so two resolutions with identical inputs yield the identical path. -/
theorem find_mount_formula (fs : String → Option Metadata) (seedEnv : Option String)
    (uid : Nat) (mount_root : Option String) (uuid r : String)
    (h : MountFlat.find_mount_root fs mount_root = Except.ok r) :
    MountFlat.find_mount fs seedEnv uid mount_root uuid
      = Except.ok (r ++ "/" ++ ("uid-" ++ toString uid) ++ "/"
          ++ (match fs MountFlat.PROC_MOUNT_NAMESPACE with
              | some a =>
                (match seedEnv with
                 | some s =>
                   if !s.data.isEmpty && !(s.data.contains '/') then
                     uuid ++ "-seed-" ++ s
                   else uuid
                 | none => uuid) ++ "-ns-" ++ toString a.ino
              | none =>
                match seedEnv with
                | some s =>
                  if !s.data.isEmpty && !(s.data.contains '/') then
                    uuid ++ "-seed-" ++ s
                  else uuid
                | none => uuid)) := by
  rcases hns : fs MountFlat.PROC_MOUNT_NAMESPACE with _ | a <;>
    rcases seedEnv with _ | s <;>
    simp [MountFlat.find_mount, MountFlat.get_user_basedir, MountFlat.get_mount_dir, h, hns]

/-- Witness for C2 (the end-to-end example): uuid "abc", uid 1000, no
override, no seed, no statable namespace handle, default root /mnt/xarfuse
with mode 01777 — the resolved path is /mnt/xarfuse/uid-1000/abc. -/
theorem find_mount_formula_witness :
    MountFlat.find_mount_root fsDefaultRootOnly none = Except.ok "/mnt/xarfuse" ∧
    MountFlat.find_mount fsDefaultRootOnly none 1000 none "abc"
      = Except.ok "/mnt/xarfuse/uid-1000/abc" := by
  refine ⟨rfl, ?_⟩
  exact (find_mount_formula fsDefaultRootOnly none 1000 none "abc" "/mnt/xarfuse" rfl).trans
    rfl

lemma create_directory_cases (env : MountEnv) (d : String) :
    MountFlat.create_directory env d = ([], true) ∨
    MountFlat.create_directory env d = ([], false) ∨
    MountFlat.create_directory env d = ([Event.mkdir d], false) ∨
    MountFlat.create_directory env d = ([Event.mkdir d, Event.chown d], true) := by
  unfold MountFlat.create_directory
  rcases env.dirExists d <;> rcases env.mkdirOk d <;> rcases env.chownOk d <;> simp

lemma create_directory_mem (env : MountEnv) (d : String) (e : Event)
    (he : e ∈ (MountFlat.create_directory env d).1) :
    e = Event.mkdir d ∨ e = Event.chown d := by
  rcases create_directory_cases env d with h | h | h | h <;> rw [h] at he <;> simp at he <;>
    tauto

lemma pollLoop_mounted (env : MountEnv) (j : Nat) (hj : env.isMounted j = true) :
    MountFlat.pollLoop env j = (true, (j - 1) * 100) := by
  unfold MountFlat.pollLoop
  simp [hj]

lemma pollLoop_timeout (env : MountEnv) (hf : ∀ k, 1 ≤ k → env.isMounted k = false) :
    ∀ n j, 90002 - j ≤ n → 1 ≤ j → j ≤ 90002 →
      MountFlat.pollLoop env j = (false, 9000100) := by
  intro n
  induction n with
  | zero =>
    intro j hn h1 h2
    have hj : j = 90002 := by omega
    subst hj
    unfold MountFlat.pollLoop
    rw [hf 90002 (by omega)]
    norm_num
  | succ n ih =>
    intro j hn h1 h2
    by_cases hj : j = 90002
    · subst hj
      unfold MountFlat.pollLoop
      rw [hf 90002 (by omega)]
      norm_num
    · unfold MountFlat.pollLoop
      rw [hf j h1]
      have hle : ¬ ((j - 1) * 100 > 9000000) := by omega
      simp only [Bool.false_eq_true, if_false, if_neg hle]
      exact ih (j + 1) (by omega) (by omega) (by omega)

lemma finishMount_mounted (env : MountEnv) (t : List Event)
    (h1 : env.isMounted 1 = true) (ht : env.touchOk = true) :
    MountFlat.finishMount env t = (t ++ [Event.touch], Except.ok ()) := by
  unfold MountFlat.finishMount
  rw [pollLoop_mounted env 1 h1]
  simp [ht]

lemma finishMount_timeout (env : MountEnv) (t : List Event)
    (hf : ∀ k, 1 ≤ k → env.isMounted k = false) :
    MountFlat.finishMount env t = (t, Except.error (MountError.timeout 9000100)) := by
  unfold MountFlat.finishMount
  rw [pollLoop_timeout env hf 90001 1 (by omega) (by omega) (by omega)]

lemma finishMount_trace (env : MountEnv) (t : List Event) :
    (MountFlat.finishMount env t).1 = t ∨
    (MountFlat.finishMount env t).1 = t ++ [Event.touch] := by
  unfold MountFlat.finishMount
  rcases MountFlat.pollLoop env 1 with ⟨b, n⟩
  rcases b <;> rcases htc : env.touchOk <;> simp [htc]

/-- Claim C4: when the pre-spawn is_mounted check reports true, Xar::mount
never spawns the helper, and (the path staying mounted through the poll and
the heartbeat succeeding) it proceeds directly through polling and the
lockfile touch to a successful return. -/
theorem mount_idempotent_skip (env : MountEnv) (o : Nat) (a p : String)
    (hu : (MountFlat.create_directory env (parentPath p)).2 = true)
    (hl : env.lockOk = true)
    (hm : (MountFlat.create_directory env p).2 = true)
    (h0 : env.isMounted 0 = true)
    (h1 : env.isMounted 1 = true)
    (ht : env.touchOk = true) :
    (∀ s x y, Event.spawn s x y ∉ (MountFlat.mount env o a p).1) ∧
    (MountFlat.mount env o a p).2 = Except.ok () := by
  rcases hq : MountFlat.create_directory env (parentPath p) with ⟨t1, b1⟩
  rcases hr : MountFlat.create_directory env p with ⟨t2, b2⟩
  rw [hq] at hu
  rw [hr] at hm
  simp at hu hm
  subst hu
  subst hm
  have hmem1 : ∀ e ∈ t1, e = Event.mkdir (parentPath p) ∨ e = Event.chown (parentPath p) := by
    intro e he
    exact create_directory_mem env (parentPath p) e (by rw [hq]; exact he)
  have hmem2 : ∀ e ∈ t2, e = Event.mkdir p ∨ e = Event.chown p := by
    intro e he
    exact create_directory_mem env p e (by rw [hr]; exact he)
  have hred : MountFlat.mount env o a p
      = MountFlat.finishMount env
          (t1 ++ [Event.lock (parentPath p ++ "/lockfile." ++ fileName p)] ++ t2) := by
    simp only [MountFlat.mount, hq, MountFlat.lock_directory, hl, if_true, hr, h0]
  rw [hred, finishMount_mounted env _ h1 ht]
  constructor
  · intro s x y hmem
    rcases List.mem_append.mp hmem with h | h
    · rcases List.mem_append.mp h with h | h
      · rcases List.mem_append.mp h with h | h
        · rcases hmem1 _ h with h | h <;> simp at h
        · simp at h
      · rcases hmem2 _ h with h | h <;> simp at h
    · simp at h
  · rfl

/-- Witness for C4: in an environment where the path is already mounted at
every check, mount performs no spawn and succeeds. -/
theorem mount_idempotent_skip_witness :
    (∀ s x y, Event.spawn s x y ∉ (MountFlat.mount envMounted 100 "a.xar" "/r/uid-1/abc").1) ∧
    (MountFlat.mount envMounted 100 "a.xar" "/r/uid-1/abc").2 = Except.ok () :=
  mount_idempotent_skip envMounted 100 "a.xar" "/r/uid-1/abc" rfl rfl rfl rfl rfl rfl

/-- Claim C3: if no poll-loop is_mounted check ever reports true, Xar::mount
never returns success and fails with the timeout error, raised (in the
idealised timing model where the k-th poll check happens (k-1)·100 µs after
polling begins) strictly after the 9-second deadline and at most one
100 µs poll interval past it. -/
theorem mount_timeout_never_mounted (env : MountEnv) (o : Nat) (a p : String)
    (hpoll : ∀ k, 1 ≤ k → env.isMounted k = false)
    (hu : (MountFlat.create_directory env (parentPath p)).2 = true)
    (hl : env.lockOk = true)
    (hm : (MountFlat.create_directory env p).2 = true)
    (hhelp : env.isMounted 0 = false →
      env.spawnOk = true ∧ env.helperStatus = HelperStatus.exit 0) :
    (MountFlat.mount env o a p).2 = Except.error (MountError.timeout 9000100) ∧
    9000000 < 9000100 ∧ 9000100 ≤ 9000000 + 100 := by
  refine ⟨?_, by omega, by omega⟩
  rcases hq : MountFlat.create_directory env (parentPath p) with ⟨t1, b1⟩
  rcases hr : MountFlat.create_directory env p with ⟨t2, b2⟩
  rw [hq] at hu
  rw [hr] at hm
  simp at hu hm
  subst hu
  subst hm
  rcases h0 : env.isMounted 0 with _ | _
  · rcases hhelp h0 with ⟨hs, hst⟩
    have hred : MountFlat.mount env o a p
        = MountFlat.finishMount env
            ((t1 ++ [Event.lock (parentPath p ++ "/lockfile." ++ fileName p)] ++ t2)
              ++ [Event.spawn ("-ooffset=" ++ toString o ++ ",timeout=870") a p]) := by
      simp only [MountFlat.mount, hq, MountFlat.lock_directory, hl, if_true, hr, h0, hs, hst]
      rfl
    rw [hred, finishMount_timeout env _ hpoll]
  · have hred : MountFlat.mount env o a p
        = MountFlat.finishMount env
            (t1 ++ [Event.lock (parentPath p ++ "/lockfile." ++ fileName p)] ++ t2) := by
      simp only [MountFlat.mount, hq, MountFlat.lock_directory, hl, if_true, hr, h0]
    rw [hred, finishMount_timeout env _ hpoll]

/-- Witness for C3: in an environment where is_mounted never reports true but
everything else succeeds, mount fails with the timeout error at 9000100 µs. -/
theorem mount_timeout_never_mounted_witness :
    (MountFlat.mount envNeverMounted 100 "a.xar" "/r/uid-1/abc").2
      = Except.error (MountError.timeout 9000100) :=
  (mount_timeout_never_mounted envNeverMounted 100 "a.xar" "/r/uid-1/abc"
    (fun _ _ => rfl) rfl rfl rfl (fun _ => ⟨rfl, rfl⟩)).1

/-- Claim C8: when the pre-spawn check reports not mounted, Xar::mount
records exactly one helper spawn, whose arguments encode
offset=<header.offset> and timeout=870 followed by the archive path and the
mount path; a non-zero exit yields the helper error carrying the exit code,
termination by signal yields the helper error carrying the signal number,
and a zero exit proceeds to polling (succeeding once the mount is visible
and the touch succeeds). -/
theorem mount_spawns_helper (env : MountEnv) (o : Nat) (a p : String)
    (hu : (MountFlat.create_directory env (parentPath p)).2 = true)
    (hl : env.lockOk = true)
    (hm : (MountFlat.create_directory env p).2 = true)
    (h0 : env.isMounted 0 = false)
    (hs : env.spawnOk = true) :
    Event.spawn ("-ooffset=" ++ toString o ++ ",timeout=870") a p
      ∈ (MountFlat.mount env o a p).1 ∧
    (MountFlat.mount env o a p).1.countP isSpawnEvent = 1 ∧
    (∀ c, env.helperStatus = HelperStatus.exit c → c ≠ 0 →
      (MountFlat.mount env o a p).2 = Except.error (MountError.helperExit c)) ∧
    (∀ sg, env.helperStatus = HelperStatus.signal sg →
      (MountFlat.mount env o a p).2 = Except.error (MountError.helperSignal sg)) ∧
    (env.helperStatus = HelperStatus.exit 0 → env.isMounted 1 = true →
      env.touchOk = true → (MountFlat.mount env o a p).2 = Except.ok ()) := by
  rcases hq : MountFlat.create_directory env (parentPath p) with ⟨t1, b1⟩
  rcases hr : MountFlat.create_directory env p with ⟨t2, b2⟩
  rw [hq] at hu
  rw [hr] at hm
  simp at hu hm
  subst hu
  subst hm
  have hmem1 : ∀ e ∈ t1, e = Event.mkdir (parentPath p) ∨ e = Event.chown (parentPath p) := by
    intro e he
    exact create_directory_mem env (parentPath p) e (by rw [hq]; exact he)
  have hmem2 : ∀ e ∈ t2, e = Event.mkdir p ∨ e = Event.chown p := by
    intro e he
    exact create_directory_mem env p e (by rw [hr]; exact he)
  have hcp1 : t1.countP isSpawnEvent = 0 := by
    rw [List.countP_eq_zero]
    intro e he
    rcases hmem1 e he with rfl | rfl <;> simp [isSpawnEvent]
  have hcp2 : t2.countP isSpawnEvent = 0 := by
    rw [List.countP_eq_zero]
    intro e he
    rcases hmem2 e he with rfl | rfl <;> simp [isSpawnEvent]
  rcases hst : env.helperStatus with c | sg
  · rcases eq_or_ne c 0 with rfl | hc
    · have hred : MountFlat.mount env o a p = MountFlat.finishMount env
          ((t1 ++ [Event.lock (parentPath p ++ "/lockfile." ++ fileName p)] ++ t2)
            ++ [Event.spawn ("-ooffset=" ++ toString o ++ ",timeout=870") a p]) := by
        simp only [MountFlat.mount, hq, MountFlat.lock_directory, hl, if_true, hr, h0, hs,
          hst, Bool.not_true, Bool.false_eq_true, if_false, if_pos rfl]
      rcases finishMount_trace env
          ((t1 ++ [Event.lock (parentPath p ++ "/lockfile." ++ fileName p)] ++ t2)
            ++ [Event.spawn ("-ooffset=" ++ toString o ++ ",timeout=870") a p]) with htr | htr
      all_goals refine ⟨?_, ?_, ?_, ?_, ?_⟩
      · rw [hred, htr]; simp
      · rw [hred, htr]
        simp [List.countP_append, List.countP_cons, hcp1, hcp2, isSpawnEvent]
      · intro c' h' hne
        injection h' with h''
        exact absurd h''.symm hne
      · intro sg h'
        exact absurd h' (by simp)
      · intro _ h1 ht
        rw [hred, finishMount_mounted env _ h1 ht]
      · rw [hred, htr]; simp
      · rw [hred, htr]
        simp [List.countP_append, List.countP_cons, hcp1, hcp2, isSpawnEvent]
      · intro c' h' hne
        injection h' with h''
        exact absurd h''.symm hne
      · intro sg h'
        exact absurd h' (by simp)
      · intro _ h1 ht
        rw [hred, finishMount_mounted env _ h1 ht]
    · have hred : MountFlat.mount env o a p
          = ((t1 ++ [Event.lock (parentPath p ++ "/lockfile." ++ fileName p)] ++ t2)
              ++ [Event.spawn ("-ooffset=" ++ toString o ++ ",timeout=870") a p],
             Except.error (MountError.helperExit c)) := by
        simp only [MountFlat.mount, hq, MountFlat.lock_directory, hl, if_true, hr, h0, hs,
          hst, Bool.not_true, Bool.false_eq_true, if_false, if_neg hc]
      refine ⟨?_, ?_, ?_, ?_, ?_⟩
      · rw [hred]; simp
      · rw [hred]
        simp [List.countP_append, List.countP_cons, hcp1, hcp2, isSpawnEvent]
      · intro c' h' hne
        injection h' with h''
        subst h''
        rw [hred]
      · intro sg h'
        exact absurd h' (by simp)
      · intro h' _ _
        injection h' with h''
        exact absurd h'' hc
  · have hred : MountFlat.mount env o a p
        = ((t1 ++ [Event.lock (parentPath p ++ "/lockfile." ++ fileName p)] ++ t2)
            ++ [Event.spawn ("-ooffset=" ++ toString o ++ ",timeout=870") a p],
           Except.error (MountError.helperSignal sg)) := by
      simp only [MountFlat.mount, hq, MountFlat.lock_directory, hl, if_true, hr, h0, hs,
        hst, Bool.not_true, Bool.false_eq_true, if_false]
    refine ⟨?_, ?_, ?_, ?_, ?_⟩
    · rw [hred]; simp
    · rw [hred]
      simp [List.countP_append, List.countP_cons, hcp1, hcp2, isSpawnEvent]
    · intro c' h' hne
      exact absurd h' (by simp)
    · intro sg' h'
      injection h' with h''
      subst h''
      rw [hred]
    · intro h' _ _
      exact absurd h' (by simp)

/-- Witness for C8: in an environment where the path is unmounted at the
pre-spawn check and mounted from the first poll on, mount spawns the helper
exactly once with the encoded arguments and succeeds. -/
theorem mount_spawns_helper_witness :
    Event.spawn "-ooffset=100,timeout=870" "a.xar" "/r/uid-1/abc"
      ∈ (MountFlat.mount envAfterSpawn 100 "a.xar" "/r/uid-1/abc").1 ∧
    (MountFlat.mount envAfterSpawn 100 "a.xar" "/r/uid-1/abc").1.countP isSpawnEvent = 1 ∧
    (MountFlat.mount envAfterSpawn 100 "a.xar" "/r/uid-1/abc").2 = Except.ok () := by
  have h := mount_spawns_helper envAfterSpawn 100 "a.xar" "/r/uid-1/abc" rfl rfl rfl rfl rfl
  exact ⟨h.1, h.2.1, h.2.2.2.2 rfl rfl rfl⟩

lemma finishMount_mem (env : MountEnv) (t : List Event) (e : Event)
    (he : e ∈ (MountFlat.finishMount env t).1) : e ∈ t ∨ e = Event.touch := by
  rcases finishMount_trace env t with h | h <;> rw [h] at he
  · exact Or.inl he
  · rcases List.mem_append.mp he with h' | h'
    · exact Or.inl h'
    · simp at h'
      exact Or.inr h'

lemma mount_trace_shape (env : MountEnv) (o : Nat) (a p : String) (t1 : List Event)
    (hq : MountFlat.create_directory env (parentPath p) = (t1, true))
    (hl : env.lockOk = true) :
    ∃ s, ((MountFlat.mount env o a p).1
        = t1 ++ Event.lock (parentPath p ++ "/lockfile." ++ fileName p)
            :: ((MountFlat.create_directory env p).1 ++ s)) ∧
      ∀ e ∈ s, e = Event.spawn ("-ooffset=" ++ toString o ++ ",timeout=870") a p ∨
        e = Event.touch := by
  rcases hr : MountFlat.create_directory env p with ⟨t2, b2⟩
  cases b2
  · refine ⟨[], ?_, by simp⟩
    simp only [MountFlat.mount, hq, MountFlat.lock_directory, hl, if_true, hr]
    simp
  · rcases h0 : env.isMounted 0 with _ | _
    · rcases hsp : env.spawnOk with _ | _
      · refine ⟨[], ?_, by simp⟩
        simp only [MountFlat.mount, hq, MountFlat.lock_directory, hl, if_true, hr, h0,
          hsp, Bool.not_false, if_true]
        simp
      · rcases hst : env.helperStatus with c | sg
        · rcases eq_or_ne c 0 with rfl | hc
          · rcases finishMount_trace env
                ((t1 ++ [Event.lock (parentPath p ++ "/lockfile." ++ fileName p)] ++ t2)
                  ++ [Event.spawn ("-ooffset=" ++ toString o ++ ",timeout=870") a p])
                with htr | htr
            · refine ⟨[Event.spawn ("-ooffset=" ++ toString o ++ ",timeout=870") a p], ?_, by simp⟩
              simp only [MountFlat.mount, hq, MountFlat.lock_directory, hl, if_true, hr, h0,
                hsp, Bool.not_true, Bool.false_eq_true, if_false, hst, if_pos rfl]
              rw [htr]
              simp
            · refine ⟨[Event.spawn ("-ooffset=" ++ toString o ++ ",timeout=870") a p,
                Event.touch], ?_, by simp⟩
              simp only [MountFlat.mount, hq, MountFlat.lock_directory, hl, if_true, hr, h0,
                hsp, Bool.not_true, Bool.false_eq_true, if_false, hst, if_pos rfl]
              rw [htr]
              simp
          · refine ⟨[Event.spawn ("-ooffset=" ++ toString o ++ ",timeout=870") a p], ?_, by simp⟩
            simp only [MountFlat.mount, hq, MountFlat.lock_directory, hl, if_true, hr, h0,
              hsp, Bool.not_true, Bool.false_eq_true, if_false, hst, if_neg hc]
            simp
        · refine ⟨[Event.spawn ("-ooffset=" ++ toString o ++ ",timeout=870") a p], ?_, by simp⟩
          simp only [MountFlat.mount, hq, MountFlat.lock_directory, hl, if_true, hr, h0,
            hsp, Bool.not_true, Bool.false_eq_true, if_false, hst]
          simp
    · rcases finishMount_trace env
          (t1 ++ [Event.lock (parentPath p ++ "/lockfile." ++ fileName p)] ++ t2)
          with htr | htr
      · refine ⟨[], ?_, by simp⟩
        simp only [MountFlat.mount, hq, MountFlat.lock_directory, hl, if_true, hr, h0,
          if_true]
        rw [htr]
        simp
      · refine ⟨[Event.touch], ?_, by simp⟩
        simp only [MountFlat.mount, hq, MountFlat.lock_directory, hl, if_true, hr, h0,
          if_true]
        rw [htr]
        simp

lemma mount_no_rmdir (env : MountEnv) (o : Nat) (a p : String) (d : String) :
    Event.rmdir d ∉ (MountFlat.mount env o a p).1 := by
  intro he
  rcases hq : MountFlat.create_directory env (parentPath p) with ⟨t1, b1⟩
  have hm1 : ∀ x ∈ t1, x = Event.mkdir (parentPath p) ∨ x = Event.chown (parentPath p) := by
    intro x hx
    exact create_directory_mem env (parentPath p) x (by rw [hq]; exact hx)
  cases b1
  · have htr : (MountFlat.mount env o a p).1 = t1 := by
      simp only [MountFlat.mount, hq]
    rw [htr] at he
    rcases hm1 _ he with h | h <;> simp at h
  · rcases hlk : env.lockOk with _ | _
    · have htr : (MountFlat.mount env o a p).1 = t1 ++ [] := by
        simp only [MountFlat.mount, hq, MountFlat.lock_directory, hlk, Bool.false_eq_true,
          if_false]
      rw [htr] at he
      simp at he
      rcases hm1 _ he with h | h <;> simp at h
    · obtain ⟨s, hs, hsm⟩ := mount_trace_shape env o a p t1 hq hlk
      rcases hr : MountFlat.create_directory env p with ⟨t2, b2⟩
      have hm2 : ∀ x ∈ t2, x = Event.mkdir p ∨ x = Event.chown p := by
        intro x hx
        exact create_directory_mem env p x (by rw [hr]; exact hx)
      rw [hs, hr] at he
      simp at he
      rcases he with he | he | he
      · rcases hm1 _ he with h | h <;> simp at h
      · rcases hm2 _ he with h | h <;> simp at h
      · rcases hsm _ he with h | h <;> simp at h

/-- Counterexample to claim C7 as stated: in a concrete invocation where no
directory pre-exists and every operation succeeds, the lockfile-open effect
occurs at position 2 of the trace, strictly before the mkdir of the mount
directory at position 3 — lock acquisition precedes creation of the mount
directory. -/
theorem mount_lock_order_counterexample :
    (MountFlat.mount envFresh 100 "a.xar" "/r/uid-1/abc").1.indexOf
        (Event.lock "/r/uid-1/lockfile.abc")
      < (MountFlat.mount envFresh 100 "a.xar" "/r/uid-1/abc").1.indexOf
        (Event.mkdir "/r/uid-1/abc") ∧
    Event.lock "/r/uid-1/lockfile.abc" ∈ (MountFlat.mount envFresh 100 "a.xar" "/r/uid-1/abc").1 ∧
    Event.mkdir "/r/uid-1/abc" ∈ (MountFlat.mount envFresh 100 "a.xar" "/r/uid-1/abc").1 := by
  have hred : MountFlat.mount envFresh 100 "a.xar" "/r/uid-1/abc"
      = ([Event.mkdir "/r/uid-1", Event.chown "/r/uid-1",
          Event.lock "/r/uid-1/lockfile.abc",
          Event.mkdir "/r/uid-1/abc", Event.chown "/r/uid-1/abc", Event.touch],
         Except.ok ()) := by
    have h0 : MountFlat.mount envFresh 100 "a.xar" "/r/uid-1/abc"
        = MountFlat.finishMount envFresh
            [Event.mkdir "/r/uid-1", Event.chown "/r/uid-1",
             Event.lock "/r/uid-1/lockfile.abc",
             Event.mkdir "/r/uid-1/abc", Event.chown "/r/uid-1/abc"] := rfl
    rw [h0, finishMount_mounted envFresh _ rfl rfl]
    rfl
  rw [hred]
  refine ⟨?_, ?_, ?_⟩ <;> decide

/-- Claim C7 (amended): in every mount invocation in which the parent user
directory is successfully prepared and the lockfile opens, the parent user
directory is created (when needed) before the lock is acquired, and the
mount directory is created only after lock acquisition — immediately after
it when it does not yet exist. -/
theorem mount_userdir_then_lock_then_mkdir (env : MountEnv) (o : Nat) (a p : String)
    (hu : (MountFlat.create_directory env (parentPath p)).2 = true)
    (hl : env.lockOk = true) :
    ∃ pre rest,
      (MountFlat.mount env o a p).1
        = pre ++ Event.lock (parentPath p ++ "/lockfile." ++ fileName p) :: rest ∧
      (∀ e ∈ pre, e = Event.mkdir (parentPath p) ∨ e = Event.chown (parentPath p)) ∧
      (env.dirExists p = false → env.mkdirOk p = true →
        rest.head? = some (Event.mkdir p)) := by
  rcases hq : MountFlat.create_directory env (parentPath p) with ⟨t1, b1⟩
  rw [hq] at hu
  simp at hu
  subst hu
  have hm1 : ∀ x ∈ t1, x = Event.mkdir (parentPath p) ∨ x = Event.chown (parentPath p) := by
    intro x hx
    exact create_directory_mem env (parentPath p) x (by rw [hq]; exact hx)
  obtain ⟨s, hs, _⟩ := mount_trace_shape env o a p t1 hq hl
  refine ⟨t1, (MountFlat.create_directory env p).1 ++ s, hs, hm1, ?_⟩
  intro hde hmk
  rcases hck : env.chownOk p with _ | _ <;>
    simp [MountFlat.create_directory, hde, hmk, hck]

/-- Witness for the amended C7: in the all-fresh environment the trace is
parent mkdir, parent chown, lock, mount-directory mkdir first in the rest. -/
theorem mount_userdir_then_lock_then_mkdir_witness :
    ∃ pre rest,
      (MountFlat.mount envFresh 100 "a.xar" "/r/uid-1/abc").1
        = pre ++ Event.lock "/r/uid-1/lockfile.abc" :: rest ∧
      (∀ e ∈ pre, e = Event.mkdir "/r/uid-1" ∨ e = Event.chown "/r/uid-1") ∧
      rest.head? = some (Event.mkdir "/r/uid-1/abc") := by
  obtain ⟨pre, rest, h1, h2, h3⟩ :=
    mount_userdir_then_lock_then_mkdir envFresh 100 "a.xar" "/r/uid-1/abc" rfl rfl
  exact ⟨pre, rest, h1, h2, h3 rfl rfl⟩

/-- Claim C9: directory preparation is frame-preserving — for a directory
that already exists, create_directory performs no mkdir, no permission
change, and no ownership change and succeeds — and no mount invocation ever
removes a directory, so directories created before a later failure remain
(no rollback). -/
theorem create_directory_frame :
    (∀ env d, env.dirExists d = true → MountFlat.create_directory env d = ([], true)) ∧
    (∀ env o a p d, Event.rmdir d ∉ (MountFlat.mount env o a p).1) := by
  constructor
  · intro env d h
    simp [MountFlat.create_directory, h]
  · intro env o a p d
    exact mount_no_rmdir env o a p d

/-- Witness for C9: on an environment whose directories all exist,
create_directory is a no-op that succeeds, and a concrete fresh-mount trace
contains no rmdir. -/
theorem create_directory_frame_witness :
    envMounted.dirExists "/r/uid-1" = true ∧
    MountFlat.create_directory envMounted "/r/uid-1" = ([], true) ∧
    Event.rmdir "/r/uid-1" ∉ (MountFlat.mount envFresh 100 "a.xar" "/r/uid-1/abc").1 :=
  ⟨rfl, create_directory_frame.1 envMounted "/r/uid-1" rfl,
    create_directory_frame.2 envFresh 100 "a.xar" "/r/uid-1/abc" "/r/uid-1"⟩

/-- Claim C1: behaviour of the platform is_mounted implementations.  The
macOS variant returns Ok true exactly when statfs succeeds with filesystem
type name osxfuse or osxfusefs, and Ok false when the query fails; no error
is ever propagated.  The non-macOS variant, however, returns Ok false for
every input — including a successful statfs reporting the FUSE filesystem
type magic 0x65735546 — so on other Unixes it never reports a FUSE mount. -/
theorem is_mounted_platform_behaviour :
    MountFlat.is_mounted_linux (some { fstypename := "fuse", ftype := 0x65735546 })
      = Except.ok false ∧
    (∀ st, MountFlat.is_mounted_linux st = Except.ok false) ∧
    (∀ s, MountFlat.is_mounted_macos (some s)
      = Except.ok (s.fstypename == "osxfuse" || s.fstypename == "osxfusefs")) ∧
    MountFlat.is_mounted_macos none = Except.ok false := by
  refine ⟨rfl, ?_, ?_, rfl⟩
  · intro st
    cases st <;> rfl
  · intro s
    rcases h : (s.fstypename == "osxfuse" || s.fstypename == "osxfusefs") with _ | _ <;>
      simp [MountFlat.is_mounted_macos, h]

lemma poll_eq_aux (env : MountEnv) : ∀ n j, 90002 - j ≤ n →
    MountFlat.pollLoop env j = MountMod.pollLoop env j := by
  intro n
  induction n with
  | zero =>
    intro j hn
    have hj : 90002 ≤ j := by omega
    unfold MountFlat.pollLoop MountMod.pollLoop
    rcases h : env.isMounted j with _ | _
    · have hgt : (j - 1) * 100 > 9000000 := by omega
      simp [h, hgt]
    · simp [h]
  | succ n ih =>
    intro j hn
    unfold MountFlat.pollLoop MountMod.pollLoop
    rcases h : env.isMounted j with _ | _
    · by_cases hc : (j - 1) * 100 > 9000000
      · simp [h, hc]
      · simp [h, hc]
        exact ih (j + 1) (by omega)
    · simp [h]

lemma finish_eq (env : MountEnv) (t : List Event) :
    MountFlat.finishMount env t = MountMod.finishMount env t := by
  unfold MountFlat.finishMount MountMod.finishMount
  rw [poll_eq_aux env 90002 1 (by omega)]

/-- Claim C10: the flat implementation in src/mount.rs and the modular one
in src/mount/ are behaviourally equivalent — for every metadata view, seed,
uid, header and environment they resolve identical mount paths, perform the
identical effect trace with the same result, and share the is_mounted
behaviour on both platforms. -/
theorem flat_mod_equivalent :
    (∀ (fs : String → Option Metadata) (seedEnv : Option String) (uid : Nat)
        (mount_root : Option String) (uuid : String),
      MountFlat.find_mount fs seedEnv uid mount_root uuid
        = MountMod.Directory.from_xar fs seedEnv uid mount_root uuid) ∧
    (∀ (env : MountEnv) (o : Nat) (a p : String),
      MountFlat.mount env o a p = MountMod.mount env o a p) ∧
    (∀ st, MountFlat.is_mounted_macos st = MountMod.Directory.is_mounted_macos st) ∧
    (∀ st, MountFlat.is_mounted_linux st = MountMod.Directory.is_mounted_linux st) := by
  refine ⟨?_, ?_, ?_, ?_⟩
  · intro fs seedEnv uid mount_root uuid
    rfl
  · intro env o a p
    rcases hq : MountMod.create_directory env (parentPath p) with ⟨t1, b1⟩
    have hq2 : MountFlat.create_directory env (parentPath p) = (t1, b1) := hq
    rcases hr : MountMod.create_directory env p with ⟨t2, b2⟩
    have hr2 : MountFlat.create_directory env p = (t2, b2) := hr
    rcases hlk : env.lockOk with _ | _ <;>
      cases b1 <;> cases b2 <;>
      rcases h0 : env.isMounted 0 with _ | _ <;>
      rcases hsp : env.spawnOk with _ | _ <;>
      rcases hst : env.helperStatus with c | sg <;>
      simp only [MountFlat.mount, MountMod.mount, MountMod.Directory.lock_and_mkdir,
        MountFlat.lock_directory, MountMod.Lock.directory, hq, hq2, hr, hr2, hlk, h0, hsp,
        hst, Bool.not_true, Bool.not_false, Bool.false_eq_true, if_true, if_false,
        finish_eq]
  · intro st
    rfl
  · intro st
    rfl
